import Mathlib

/-!
Verification of the two scripts in this repository against their
natural-language specification:

* `fix_sagemaker_workflow_import.py` — the "SDK doctor": checks the installed
  SageMaker SDK version, attempts the `sagemaker.workflow` import, upgrades via
  pip when needed, and exits 0 on success / 1 on failure.
* `seedcode/pipelines/abalone/preprocess.py` — the abalone preprocessor:
  reads the dataset, pops the `rings` label, fits a column transformer,
  concatenates label-first, shuffles, splits 70/15/15, writes CSV partitions,
  and optionally writes the untransformed rows to SageMaker Feature Store with
  broad exception swallowing.

Both scripts are shallowly embedded below.  External effects (imports,
subprocess calls, boto/sagemaker API calls) are modelled by oracles giving the
outcome of each call; Python exceptions are modelled as values of `PyErr`
(covering the `Exception` hierarchy); Python strings are Lean `String`s and the
numeric dataframe cells are modelled as rationals.
-/

/-- Kind of a modelled Python exception, distinguishing the classes the two
scripts catch (`ImportError`, `subprocess.CalledProcessError`) and
`ValueError` (raised by failed `int()` parses and tuple unpacking) from
everything else under `Exception`. -/
inductive PyKind where
  | importError
  | valueError
  | calledProcessError
  | other
deriving DecidableEq

/-- A modelled Python exception: its class (kind) and its `str(e)` message. -/
structure PyErr where
  kind : PyKind
  msg : String
deriving DecidableEq

instance {ε α : Type} [DecidableEq ε] [DecidableEq α] : DecidableEq (Except ε α) := fun x y =>
  match x, y with
  | Except.ok a, Except.ok b =>
      if h : a = b then Decidable.isTrue (congrArg Except.ok h)
      else Decidable.isFalse (fun hh => h (Except.ok.inj hh))
  | Except.ok _, Except.error _ => Decidable.isFalse (fun hh => Except.noConfusion hh)
  | Except.error _, Except.ok _ => Decidable.isFalse (fun hh => Except.noConfusion hh)
  | Except.error e, Except.error f =>
      if h : e = f then Decidable.isTrue (congrArg Except.error h)
      else Decidable.isFalse (fun hh => h (Except.error.inj hh))

/-- Python `sep.split` on a single character, e.g. `"a.b.".split('.') =
["a", "b", ""]`: splitting never yields the empty list. -/
def splitChars (sep : Char) : List Char → List (List Char)
  | [] => [[]]
  | c :: cs =>
    let r := splitChars sep cs
    if c = sep then [] :: r
    else
      match r with
      | [] => [[c]]
      | h :: t => (c :: h) :: t

/-- Decimal value of a digit-character list (used only on all-digit input). -/
def digitsToNat (cs : List Char) : ℕ :=
  cs.foldl (fun a c => a * 10 + (c.toNat - 48)) 0

/-- Python `int(s)` on a string: strip surrounding whitespace, allow one
optional sign, then require a nonempty run of decimal digits; anything else
raises `ValueError` (modelled as `none`).  (CPython additionally accepts
underscore digit separators and non-ASCII decimal digits, which cannot occur
in the version strings this model is applied to.) -/
def pyInt (cs : List Char) : Option Int :=
  let t := ((cs.dropWhile Char.isWhitespace).reverse.dropWhile Char.isWhitespace).reverse
  match t with
  | '-' :: rest =>
      if rest ≠ [] ∧ rest.all Char.isDigit then some (-(digitsToNat rest : Int)) else none
  | '+' :: rest =>
      if rest ≠ [] ∧ rest.all Char.isDigit then some (digitsToNat rest : Int) else none
  | rest =>
      if rest ≠ [] ∧ rest.all Char.isDigit then some (digitsToNat rest : Int) else none

/-- Model of `major, minor = map(int, version.split('.')[:2])`
(fix_sagemaker_workflow_import.py line 32).  A failed `int()` parse raises
`ValueError`; so does unpacking when the split has fewer than two
components.  Neither is caught by the surrounding `except ImportError`. -/
def parseMajorMinor (v : String) : Except PyErr (Int × Int) :=
  match (splitChars '.' v.data).take 2 with
  | [a, b] =>
      match pyInt a, pyInt b with
      | some x, some y => Except.ok (x, y)
      | _, _ => Except.error ⟨PyKind.valueError, "invalid literal for int with base 10"⟩
  | _ => Except.error ⟨PyKind.valueError, "not enough values to unpack"⟩

/-- Model of the doctor version check (lines 32–38): parse major/minor from
the installed version string and set `needs_upgrade` to `major < 2`. -/
def versionNeedsUpgrade (v : String) : Except PyErr Bool :=
  (parseMajorMinor v).map (fun p => decide (p.1 < 2))

/-- Observable console events of the doctor that the spec talks about. -/
inductive DocEv where
  | printRemediation
deriving DecidableEq

/-- Oracle for the doctor external calls: `sdkVersion = some v` means
`import sagemaker` succeeds with `__version__ = v` (`none` = `ImportError`);
`workflowOk1` is the first `sagemaker.workflow` import attempt; `pipOk` the
`subprocess.check_call` pip upgrade; `postImportOk` the `import sagemaker`
re-import after install; `workflowOk2` the post-install workflow import. -/
structure DoctorOracle where
  sdkVersion : Option String
  workflowOk1 : Bool
  pipOk : Bool
  postImportOk : Bool
  workflowOk2 : Bool
deriving DecidableEq

/-- The doctor initial `needs_upgrade` after the `try: import sagemaker`
block: `ImportError` means upgrade; otherwise the version check runs (and may
raise `ValueError`, uncaught). -/
def stage1 (o : DoctorOracle) : Except PyErr Bool :=
  match o.sdkVersion with
  | none => Except.ok true
  | some v => versionNeedsUpgrade v

/-- The doctor install/upgrade path (lines 57–88): a failed pip call is
caught as `CalledProcessError`, the manual remediation command is printed and
`False` is returned; a failed re-import of `sagemaker` propagates; the
post-install workflow import decides the returned flag. -/
def installStage (o : DoctorOracle) : List DocEv × Except PyErr Bool :=
  if !o.pipOk then ([DocEv.printRemediation], Except.ok false)
  else if !o.postImportOk then
    ([], Except.error ⟨PyKind.importError, "No module named sagemaker"⟩)
  else if o.workflowOk2 then ([], Except.ok true)
  else ([], Except.ok false)

/-- Model of `check_and_install_sagemaker()`: console events plus the returned
Boolean (`Except.error` = an uncaught exception propagating out). -/
def checkAndInstall (o : DoctorOracle) : List DocEv × Except PyErr Bool :=
  match stage1 o with
  | Except.error e => ([], Except.error e)
  | Except.ok nu0 =>
      if nu0 = false && o.workflowOk1 then ([], Except.ok true)
      else installStage o

/-- Model of the doctor `__main__`: `sys.exit(0 if success else 1)`. -/
def mainExit (o : DoctorOracle) : Except PyErr ℕ :=
  (checkAndInstall o).2.map (fun b => if b then 0 else 1)

/-!
## Abalone preprocessor: data model

A dataframe row after `read_csv` with the static schema of
`preprocess.py` lines 26–48: the eight feature columns plus the `rings`
label.  Float cells are modelled as rationals. -/

/-- One row of the abalone dataframe (features plus the `rings` label). -/
structure Row where
  sex : String
  length : ℚ
  diameter : ℚ
  height : ℚ
  whole_weight : ℚ
  shucked_weight : ℚ
  viscera_weight : ℚ
  shell_weight : ℚ
  rings : ℚ
deriving DecidableEq

/-- A row after `df.pop("rings")`: the eight feature columns only.  The
column transformer is fit on exactly this shape, so the label can never reach
it. -/
structure FeatRow where
  sex : String
  length : ℚ
  diameter : ℚ
  height : ℚ
  whole_weight : ℚ
  shucked_weight : ℚ
  viscera_weight : ℚ
  shell_weight : ℚ
deriving DecidableEq

/-- Drop the label from a row (the dataframe left behind by `pop`). -/
def dropLabel (r : Row) : FeatRow :=
  ⟨r.sex, r.length, r.diameter, r.height, r.whole_weight, r.shucked_weight,
   r.viscera_weight, r.shell_weight⟩

/-- Reattach a label to a feature row (`original_df["rings"] = y`): `rings`
was the last column before the pop, so appending it restores the original
column order. -/
def withLabel (f : FeatRow) (y : ℚ) : Row :=
  ⟨f.sex, f.length, f.diameter, f.height, f.whole_weight, f.shucked_weight,
   f.viscera_weight, f.shell_weight, y⟩

/-- Model of `y = df.pop("rings")` (line 206): the extracted label column and
the remaining feature dataframe. -/
def popRings (df : List Row) : List ℚ × List FeatRow :=
  (df.map Row.rings, df.map dropLabel)

/-- Model of lines 206–210: pop the label, fit-transform the features with the
column transformer `tr` (an opaque row-count-preserving library call), reshape
the label to a column and concatenate it in front
(`np.concatenate((y_pre, X_pre), axis=1)`). -/
def buildX (df : List Row) (tr : List FeatRow → List (List ℚ)) : List (List ℚ) :=
  List.zipWith (fun yi xi => yi :: xi) (popRings df).1 (tr (popRings df).2)

/-- Model of lines 238–239: `original_df = df.copy(); original_df["rings"] = y`
— the snapshot written to `features.csv` is the untransformed feature columns
with the label reattached. -/
def featuresSnapshot (df : List Row) : List Row :=
  List.zipWith withLabel (popRings df).2 (popRings df).1

/-!
## The 70/15/15 split -/

/-- Model of `np.split(X, [i, j])`: the sections `X[0:i]`, `X[i:j]`, `X[j:]`
with NumPy/Python slice clamping. -/
def npSplit {α : Type} (X : List α) (i j : ℕ) : List α × List α × List α :=
  (X.take i, (X.take j).drop i, X.drop j)

/-- Model of `int(0.7 * len(X))` (line 218) in exact real arithmetic:
`⌊7n/10⌋`.  (CPython evaluates the product in binary floating point, whose
value the truncation is applied to; the exact-arithmetic floor is the
idealised boundary the spec describes.) -/
def int07 (n : ℕ) : ℕ := 7 * n / 10

/-- Model of `int(0.85 * len(X))` (line 218) in exact real arithmetic:
`⌊17n/20⌋`. -/
def int85 (n : ℕ) : ℕ := 17 * n / 20

/-!
## Decimal stringification

`str` conversion of nonnegative integers, modelling `astype(str)` on the
dataframe integer index and the `dtype=str` series of timestamps
(preprocess.py lines 98–101). -/

/-- Fuel-indexed decimal rendering; `fuel ≥ n` suffices. -/
def strOfNatAux : ℕ → ℕ → List Char
  | 0, _ => []
  | fuel + 1, n =>
    if n < 10 then [Nat.digitChar n]
    else strOfNatAux fuel (n / 10) ++ [Nat.digitChar (n % 10)]

/-- Decimal string of a natural number, the model of Python `str(i)` for the
nonnegative integers appearing in the feature-store columns. -/
def strOfNat (n : ℕ) : List Char := strOfNatAux (n + 1) n

/-- Model of line 100: `[current_time_sec] * len(df_fs)` rendered with
`dtype=str` — every row of the batch gets the same stringified timestamp. -/
def eventTimeCol (n t : ℕ) : List (List Char) :=
  List.replicate n (strOfNat t)

/-- Model of line 101: `df_fs.index.astype(str)` — the stringified row
index. -/
def recordIdCol (idx : List ℕ) : List (List Char) :=
  idx.map strOfNat

/-!
## Feature-store write path and the tail of `__main__`

The observable effects of the preprocessor from the partition writes onward
are modelled as an event trace; the boto/sagemaker calls inside
`write_to_feature_store` are given outcomes by an oracle. -/

/-- Observable events of the preprocessor tail: CSV writes (with their
`header`/`index` flags), log lines, and the feature-store API calls. -/
inductive Ev where
  | writeCsv (path : String) (header : Bool) (index : Bool)
  | logWarning (msg : String)
  | logInfo (msg : String)
  | fsCreate
  | fsSleep (secs : ℕ)
  | fsIngest
deriving DecidableEq

/-- Python `needle in hay` substring containment. -/
def pyIn (needle : List Char) : List Char → Bool
  | [] => needle.isEmpty
  | c :: rest => needle.isPrefixOf (c :: rest) || pyIn needle rest

/-- Python `needle in hay` on strings. -/
def pyInStr (needle hay : String) : Bool := pyIn needle.data hay.data

/-- Python `s.lower()` (ASCII; the strings compared here are ASCII). -/
def pyLowerStr (s : String) : String := String.mk (s.data.map Char.toLower)

/-- Oracle for the external calls of `write_to_feature_store`:
`sdkImportOk` — the `import sagemaker` / feature-store imports succeed;
`sessionErr` — the boto/sagemaker session construction raises with this
message; `ringsPresent` — the `rings` column is present in the dataframe
(always true at the one call site); `createErr` — `feature_group.create`
(including the `default_bucket()` call in its argument) raises with this
message; `ingestErr` — `feature_group.ingest` raises with this message. -/
structure FsOracle where
  sdkImportOk : Bool
  sessionErr : Option String
  ringsPresent : Bool
  createErr : Option String
  ingestErr : Option String
deriving DecidableEq

/-- The ingest call (line 138) and its success log line. -/
def ingestStep (o : FsOracle) (evs : List Ev) : List Ev × Option PyErr :=
  match o.ingestErr with
  | none => (evs ++ [Ev.fsIngest, Ev.logInfo "Successfully ingested records to Feature Store"], none)
  | some m => (evs ++ [Ev.fsIngest], some ⟨PyKind.other, m⟩)

/-- The body of the outer `try` of `write_to_feature_store` (lines 60–139):
imports, session construction, the synthetic columns, the required-column
check, the guarded `feature_group.create` with its substring-matched
`except`, and the ingest.  Returns the events emitted and the exception (if
any) escaping the body. -/
def wtfsBody (o : FsOracle) : List Ev × Option PyErr :=
  if !o.sdkImportOk then ([], some ⟨PyKind.importError, "No module named sagemaker"⟩)
  else
    let e1 := [Ev.logInfo "Writing features to Feature Store"]
    match o.sessionErr with
    | some m => (e1, some ⟨PyKind.other, m⟩)
    | none =>
      if !o.ringsPresent then
        (e1 ++ [Ev.logWarning "Column rings not found, skipping Feature Store write"], none)
      else
        match o.createErr with
        | none =>
            ingestStep o (e1 ++ [Ev.fsCreate, Ev.logInfo "Created new feature group", Ev.fsSleep 10])
        | some m =>
            if pyInStr "ResourceInUse" m || pyInStr "already exists" (pyLowerStr m) then
              ingestStep o (e1 ++ [Ev.fsCreate, Ev.logInfo "Feature group already exists, using existing one"])
            else
              (e1 ++ [Ev.fsCreate, Ev.logWarning ("Could not create feature group: " ++ m)], none)

/-- Model of `write_to_feature_store` (lines 58–145): the body wrapped in
`except ImportError` / `except Exception`, both of which log a warning and
return normally. -/
def writeToFeatureStore (o : FsOracle) : List Ev × Option PyErr :=
  match wtfsBody o with
  | (evs, none) => (evs, none)
  | (evs, some e) =>
      match e.kind with
      | PyKind.importError =>
          (evs ++ [Ev.logWarning "SageMaker Feature Store SDK not available, skipping Feature Store write"], none)
      | _ =>
          (evs ++ [Ev.logWarning ("Failed to write to Feature Store: " ++ e.msg),
                   Ev.logWarning "Continuing without Feature Store"], none)

/-- The preprocessor parsed CLI arguments (lines 150–155). -/
structure Args where
  inputData : String
  featureGroupName : Option String
  enableFeatureStore : String
  region : Option String

/-- Process environment: `os.environ.get`. -/
def EnvMap : Type := String → Option String

/-- Python truthiness of an optional string (`None` and `""` are falsy). -/
def pyTruthy : Option String → Bool
  | none => false
  | some s => !s.isEmpty

/-- Python `a or b` on optional strings: `b` when `a` is falsy. -/
def pyOrOpt (a b : Option String) : Option String :=
  if pyTruthy a then a else b

/-- The fixed output root of the processing container. -/
def baseDir : String := "/opt/ml/processing"

/-- The four CSV writes of `__main__` (lines 222–242), in program order: the
three headerless, index-less split partitions and the headered feature
snapshot. -/
def csvWriteEvents : List Ev :=
  [Ev.writeCsv (baseDir ++ "/train/train.csv") false false,
   Ev.writeCsv (baseDir ++ "/validation/validation.csv") false false,
   Ev.writeCsv (baseDir ++ "/test/test.csv") false false,
   Ev.writeCsv (baseDir ++ "/features/features.csv") true false]

/-- Model of lines 246–260: the feature-store step of `__main__`.  Gated on
`args.enable_feature_store.lower() == "true"` and a truthy
`args.feature_group_name`; looks up the role ARN with
`os.environ.get(...) or os.environ.get(...)`; warns and skips when it is
falsy; otherwise calls `write_to_feature_store` inside a `try` whose
`except Exception` logs and continues. -/
def fsStep (a : Args) (env : EnvMap) (o : FsOracle) : List Ev × Option PyErr :=
  if pyLowerStr a.enableFeatureStore = "true" && pyTruthy a.featureGroupName then
    let role := pyOrOpt (env "SAGEMAKER_ROLE_ARN") (env "TRAINING_JOB_ROLE_ARN")
    if !pyTruthy role then
      ([Ev.logWarning "IAM role not found in environment, skipping Feature Store write"], none)
    else
      match writeToFeatureStore o with
      | (evs, none) => (evs, none)
      | (evs, some e) =>
          (evs ++ [Ev.logWarning ("Feature Store ingestion failed: " ++ e.msg ++ ", continuing")], none)
  else ([], none)

/-- Event trace of the tail of the preprocessor `__main__` (line 221
onward): the four CSV writes in program order, then the feature-store step. -/
def mainEvents (a : Args) (env : EnvMap) (o : FsOracle) : List Ev :=
  csvWriteEvents ++ (fsStep a env o).1

/-- The exception (if any) escaping the tail of `__main__`. -/
def mainErr (a : Args) (env : EnvMap) (o : FsOracle) : Option PyErr :=
  (fsStep a env o).2

/-- Is an event a CSV write? -/
def isCsvWrite : Ev → Bool
  | Ev.writeCsv _ _ _ => true
  | _ => false

/-!
## Helper lemmas -/

theorem digitChar_toNat_sub (n : ℕ) (h : n < 10) : (Nat.digitChar n).toNat - 48 = n := by
  interval_cases n <;> rfl

theorem strOfNatAux_foldl (fuel : ℕ) : ∀ n a, n < fuel →
    (strOfNatAux fuel n).foldl (fun acc c => acc * 10 + (c.toNat - 48)) a =
      a * 10 ^ (strOfNatAux fuel n).length + n := by
  induction fuel with
  | zero => intro n a h; omega
  | succ fuel ih =>
    intro n a h
    by_cases h10 : n < 10
    · simp [strOfNatAux, h10, digitChar_toNat_sub n h10]
    · have hrec : n / 10 < fuel := by omega
      rw [strOfNatAux, if_neg h10, List.foldl_append, ih (n / 10) a hrec,
        List.length_append]
      simp only [List.foldl_cons, List.foldl_nil, List.length_cons, List.length_nil,
        Nat.zero_add, pow_succ]
      rw [digitChar_toNat_sub (n % 10) (by omega), ← mul_assoc]
      generalize a * 10 ^ (strOfNatAux fuel (n / 10)).length = t
      omega

theorem parseNat_strOfNat (n : ℕ) :
    (strOfNat n).foldl (fun acc c => acc * 10 + (c.toNat - 48)) 0 = n := by
  have h := strOfNatAux_foldl (n + 1) n 0 (by omega)
  simpa [strOfNat] using h

theorem strOfNat_injective : Function.Injective strOfNat := by
  intro m n h
  have hm := parseNat_strOfNat m
  rw [h, parseNat_strOfNat n] at hm
  exact hm.symm

theorem zipWith_cons_head (ys : List ℚ) :
    ∀ xs : List (List ℚ), ys.length = xs.length →
      (List.zipWith (fun yi xi => yi :: xi) ys xs).map List.head? = ys.map some := by
  induction ys with
  | nil => intro xs _; simp
  | cons y ys ih =>
    intro xs hlen
    cases xs with
    | nil => simp at hlen
    | cons x xs =>
      simp only [List.length_cons, Nat.add_right_cancel_iff] at hlen
      simp [ih xs hlen]

theorem withLabel_dropLabel (r : Row) : withLabel (dropLabel r) r.rings = r := by
  cases r; rfl

theorem featuresSnapshot_eq_self (df : List Row) : featuresSnapshot df = df := by
  induction df with
  | nil => rfl
  | cons r t ih =>
    simp only [featuresSnapshot, popRings, List.map_cons, List.zipWith_cons_cons,
      withLabel_dropLabel] at ih ⊢
    rw [ih]

theorem wtfsBody_no_csv (o : FsOracle) : ∀ ev ∈ (wtfsBody o).1, isCsvWrite ev = false := by
  unfold wtfsBody
  split
  · simp
  · split
    · simp [isCsvWrite]
    · split
      · simp [isCsvWrite]
      · split
        · unfold ingestStep
          split <;> simp [isCsvWrite]
        · split
          · unfold ingestStep
            split <;> simp [isCsvWrite]
          · simp [isCsvWrite]

theorem wtfs_snd_eq_none (o : FsOracle) : (writeToFeatureStore o).2 = none := by
  unfold writeToFeatureStore
  split
  · rfl
  · split <;> rfl

theorem wtfs_no_csv (o : FsOracle) : ∀ ev ∈ (writeToFeatureStore o).1, isCsvWrite ev = false := by
  unfold writeToFeatureStore
  split
  next evs heq =>
    intro ev hev
    exact wtfsBody_no_csv o ev (by rw [heq]; exact hev)
  next evs e heq =>
    split <;>
    · intro ev hev
      rcases List.mem_append.1 hev with hl | hr
      · exact wtfsBody_no_csv o ev (by rw [heq]; exact hl)
      · simp only [List.mem_cons, List.mem_singleton, List.not_mem_nil] at hr
        rcases hr with h | h <;> first | (subst h; rfl) | simp_all [isCsvWrite]

theorem fsStep_snd_eq_none (a : Args) (env : EnvMap) (o : FsOracle) :
    (fsStep a env o).2 = none := by
  unfold fsStep
  split
  · split <;> (dsimp only; split <;> rfl)
  · rfl

theorem fsStep_no_csv (a : Args) (env : EnvMap) (o : FsOracle) :
    ∀ ev ∈ (fsStep a env o).1, isCsvWrite ev = false := by
  intro ev hev
  unfold fsStep at hev
  split at hev
  · split at hev
    next evs heq =>
      dsimp only at hev
      split at hev
      · simp only [List.mem_singleton] at hev
        subst hev; rfl
      · exact wtfs_no_csv o ev (by rw [heq]; exact hev)
    next evs e heq =>
      dsimp only at hev
      split at hev
      · simp only [List.mem_singleton] at hev
        subst hev; rfl
      · rcases List.mem_append.1 hev with hl | hr
        · exact wtfs_no_csv o ev (by rw [heq]; exact hl)
        · simp only [List.mem_singleton] at hr
          subst hr; rfl
  · simp at hev

/-!
## The claims -/

/-- Claim C1: for every input array `X` of `n` rows, `np.split` at indices
`int(0.7*n)` and `int(0.85*n)` produces three partitions whose sizes are
`int(0.7*n)`, `int(0.85*n) - int(0.7*n)` and `n - int(0.85*n)`, and these
sizes always sum to `n`.  (The boundary expressions are modelled in exact
arithmetic by `int07` and `int85`.) -/
theorem c1_split_partition_sizes {α : Type} (X : List α) :
    (npSplit X (int07 X.length) (int85 X.length)).1.length = int07 X.length ∧
    (npSplit X (int07 X.length) (int85 X.length)).2.1.length =
      int85 X.length - int07 X.length ∧
    (npSplit X (int07 X.length) (int85 X.length)).2.2.length =
      X.length - int85 X.length ∧
    (npSplit X (int07 X.length) (int85 X.length)).1.length +
      (npSplit X (int07 X.length) (int85 X.length)).2.1.length +
      (npSplit X (int07 X.length) (int85 X.length)).2.2.length = X.length := by
  have h7 : int07 X.length ≤ X.length := by unfold int07; omega
  have h8 : int85 X.length ≤ X.length := by unfold int85; omega
  have h78 : int07 X.length ≤ int85 X.length := by unfold int07 int85; omega
  have p1 : (npSplit X (int07 X.length) (int85 X.length)).1.length = int07 X.length :=
    List.length_take_of_le h7
  have p2 : (npSplit X (int07 X.length) (int85 X.length)).2.1.length =
      int85 X.length - int07 X.length := by
    show ((X.take (int85 X.length)).drop (int07 X.length)).length = _
    rw [List.length_drop, List.length_take_of_le h8]
  have p3 : (npSplit X (int07 X.length) (int85 X.length)).2.2.length =
      X.length - int85 X.length := List.length_drop _ _
  refine ⟨p1, p2, p3, ?_⟩
  rw [p1, p2, p3]
  omega

/-- Claim C2: for every installed-SDK version string whose first two
dot-separated components parse as integers, the doctor version check
classifies the SDK as needing upgrade exactly when the parsed major version
is strictly less than 2, and as compatible otherwise. -/
theorem c2_version_check_classification (v : String) (maj mnr : Int)
    (h : parseMajorMinor v = Except.ok (maj, mnr)) :
    versionNeedsUpgrade v = Except.ok (decide (maj < 2)) := by
  simp [versionNeedsUpgrade, h, Except.map]

theorem c2_version_check_classification_witness :
    versionNeedsUpgrade "1.72.0" = Except.ok (decide ((1 : Int) < 2)) ∧
    versionNeedsUpgrade "2.219.0" = Except.ok (decide ((2 : Int) < 2)) :=
  ⟨c2_version_check_classification "1.72.0" 1 72 (by decide),
   c2_version_check_classification "2.219.0" 2 219 (by decide)⟩

/-- Claim C3: for every run of the preprocessor and every exception raised
inside the feature-store write path, the three partition files are still
produced: the partition writes precede the feature-store step in program
order (the trace is the CSV writes followed by `fsStep`, which emits no CSV
write), and no feature-store error ever escapes (`mainErr` is `none` for
every oracle). -/
theorem c3_partitions_survive_feature_store (a : Args) (env : EnvMap) (o : FsOracle) :
    mainEvents a env o = csvWriteEvents ++ (fsStep a env o).1 ∧
    Ev.writeCsv (baseDir ++ "/train/train.csv") false false ∈ mainEvents a env o ∧
    Ev.writeCsv (baseDir ++ "/validation/validation.csv") false false ∈ mainEvents a env o ∧
    Ev.writeCsv (baseDir ++ "/test/test.csv") false false ∈ mainEvents a env o ∧
    (∀ ev ∈ (fsStep a env o).1, isCsvWrite ev = false) ∧
    mainErr a env o = none := by
  refine ⟨rfl, ?_, ?_, ?_, fsStep_no_csv a env o, fsStep_snd_eq_none a env o⟩ <;>
    simp [mainEvents, csvWriteEvents]

/-- Claim C4: the label column `rings` is popped from the dataframe before
the column transformer is fit (the transformer input is `(popRings df).2`,
which has no label field), and the concatenated array has the label values
as its first column. -/
theorem c4_label_first_column (df : List Row) (tr : List FeatRow → List (List ℚ))
    (h : (tr (popRings df).2).length = df.length) :
    buildX df tr =
      List.zipWith (fun yi xi => yi :: xi) (df.map Row.rings) (tr (df.map dropLabel)) ∧
    (buildX df tr).map List.head? = df.map (fun r => some r.rings) := by
  refine ⟨rfl, ?_⟩
  unfold buildX
  rw [zipWith_cons_head]
  · simp [popRings]
  · simp only [popRings, List.length_map]
    simpa using h.symm

def c4Df : List Row :=
  [⟨"M", 1, 2, 3, 4, 5, 6, 7, 8⟩, ⟨"F", 1, 2, 3, 4, 5, 6, 7, 9⟩]

def c4Tr (fs : List FeatRow) : List (List ℚ) :=
  fs.map (fun _ => [0])

theorem c4_label_first_column_witness :
    (c4Tr (popRings c4Df).2).length = c4Df.length ∧
    (buildX c4Df c4Tr).map List.head? = c4Df.map (fun r => some r.rings) :=
  ⟨rfl, (c4_label_first_column c4Df c4Tr rfl).2⟩

/-- Claim C5: when feature-store ingestion is enabled by the CLI flags but
neither `SAGEMAKER_ROLE_ARN` nor `TRAINING_JOB_ROLE_ARN` is set, the
preprocessor logs exactly the skip warning and performs no feature-store
work and raises nothing. -/
theorem c5_missing_role_skips (a : Args) (env : EnvMap) (o : FsOracle)
    (hEnable : pyLowerStr a.enableFeatureStore = "true")
    (hName : pyTruthy a.featureGroupName = true)
    (h1 : env "SAGEMAKER_ROLE_ARN" = none)
    (h2 : env "TRAINING_JOB_ROLE_ARN" = none) :
    fsStep a env o =
      ([Ev.logWarning "IAM role not found in environment, skipping Feature Store write"],
       none) := by
  unfold fsStep
  rw [h1, h2, hEnable, hName]
  simp [pyOrOpt, pyTruthy]

def c5Args : Args := ⟨"s3://bucket/key", some "abalone-features", "True", none⟩

def c5Env : EnvMap := fun _ => none

def c5Oracle : FsOracle := ⟨true, none, true, none, none⟩

theorem c5_missing_role_skips_witness :
    fsStep c5Args c5Env c5Oracle =
      ([Ev.logWarning "IAM role not found in environment, skipping Feature Store write"],
       none) :=
  c5_missing_role_skips c5Args c5Env c5Oracle (by decide) (by decide) rfl rfl

/-- Claim C6: the SDK doctor exits 0 exactly when `check_and_install_sagemaker`
returns `True` and 1 when it returns `False`; and whenever the install path is
reached (upgrade needed) and the pip subprocess fails, the function prints the
manual remediation command and returns `False`, so the process exits 1. -/
theorem c6_exit_codes (o : DoctorOracle) :
    (mainExit o = Except.ok 0 ↔ (checkAndInstall o).2 = Except.ok true) ∧
    (mainExit o = Except.ok 1 ↔ (checkAndInstall o).2 = Except.ok false) ∧
    ((stage1 o = Except.ok true ∨ (stage1 o = Except.ok false ∧ o.workflowOk1 = false)) →
      o.pipOk = false →
      (checkAndInstall o).2 = Except.ok false ∧
      DocEv.printRemediation ∈ (checkAndInstall o).1 ∧
      mainExit o = Except.ok 1) := by
  have hinstall : o.pipOk = false →
      installStage o = ([DocEv.printRemediation], Except.ok false) := by
    intro hp
    unfold installStage
    rw [hp]
    rfl
  refine ⟨?_, ?_, ?_⟩
  · cases h : (checkAndInstall o).2 with
    | error e => simp [mainExit, h, Except.map]
    | ok b => cases b <;> simp [mainExit, h, Except.map]
  · cases h : (checkAndInstall o).2 with
    | error e => simp [mainExit, h, Except.map]
    | ok b => cases b <;> simp [mainExit, h, Except.map]
  · rintro (hs | ⟨hs, hw⟩) hp
    · have hc : checkAndInstall o = ([DocEv.printRemediation], Except.ok false) := by
        unfold checkAndInstall
        rw [hs]
        simpa using hinstall hp
      simp [hc, mainExit, Except.map]
    · have hc : checkAndInstall o = ([DocEv.printRemediation], Except.ok false) := by
        unfold checkAndInstall
        rw [hs, hw]
        simpa using hinstall hp
      simp [hc, mainExit, Except.map]

def c6Oracle : DoctorOracle := ⟨none, false, false, true, true⟩

theorem c6_exit_codes_witness :
    (checkAndInstall c6Oracle).2 = Except.ok false ∧
    DocEv.printRemediation ∈ (checkAndInstall c6Oracle).1 ∧
    mainExit c6Oracle = Except.ok 1 :=
  (c6_exit_codes c6Oracle).2.2 (Or.inl (by decide)) rfl

/-- Claim C7: the synthetic `event_time` column holds the same stringified
timestamp in every row of the batch, and `record_id` is the stringified row
index, so the record identifiers are pairwise distinct whenever the
dataframe index is unique. -/
theorem c7_synthetic_columns (n t : ℕ) (idx : List ℕ) :
    (∀ s ∈ eventTimeCol n t, s = strOfNat t) ∧
    (idx.Nodup → (recordIdCol idx).Nodup) := by
  constructor
  · intro s hs
    exact List.eq_of_mem_replicate hs
  · intro h
    exact h.map strOfNat_injective

theorem c7_synthetic_columns_witness :
    (recordIdCol [0, 1, 2]).Nodup ∧ eventTimeCol 2 5 = [strOfNat 5, strOfNat 5] :=
  ⟨(c7_synthetic_columns 2 5 [0, 1, 2]).2 (by decide), by decide⟩

/-- Claim C8: when feature-group creation raises, `write_to_feature_store`
proceeds to ingest exactly when the exception text contains `ResourceInUse`
or contains `already exists` case-insensitively; for any other creation
error it logs a warning and returns without ingesting and without raising. -/
theorem c8_create_conflict_matching (o : FsOracle) (m : String)
    (h1 : o.sdkImportOk = true) (h2 : o.sessionErr = none)
    (h3 : o.ringsPresent = true) (h4 : o.createErr = some m) :
    (writeToFeatureStore o).2 = none ∧
    (Ev.fsIngest ∈ (writeToFeatureStore o).1 ↔
      (pyInStr "ResourceInUse" m || pyInStr "already exists" (pyLowerStr m)) = true) ∧
    ((pyInStr "ResourceInUse" m || pyInStr "already exists" (pyLowerStr m)) = false →
      Ev.logWarning ("Could not create feature group: " ++ m) ∈ (writeToFeatureStore o).1) := by
  refine ⟨wtfs_snd_eq_none o, ?_, ?_⟩ <;>
  · rcases o with ⟨si, se, rp, ce, ie⟩
    simp only at h1 h2 h3 h4
    subst h1; subst h2; subst h3; subst h4
    cases hcond : (pyInStr "ResourceInUse" m || pyInStr "already exists" (pyLowerStr m)) <;>
      cases ie <;>
        simp [writeToFeatureStore, wtfsBody, ingestStep, hcond]

def c8Oracle : FsOracle := ⟨true, none, true, some "ResourceInUse: duplicate", none⟩

theorem c8_create_conflict_matching_witness :
    (writeToFeatureStore c8Oracle).2 = none ∧ Ev.fsIngest ∈ (writeToFeatureStore c8Oracle).1 :=
  ⟨(c8_create_conflict_matching c8Oracle "ResourceInUse: duplicate" rfl rfl rfl rfl).1,
   ((c8_create_conflict_matching c8Oracle "ResourceInUse: duplicate" rfl rfl rfl rfl).2.1).mpr
     (by decide)⟩

/-- Claim C9: the three split partitions are written without header and
without index, the feature snapshot `features.csv` is written with a header
(and no index), and the snapshot holds the untransformed feature columns
with the `rings` label reattached — i.e. exactly the original rows. -/
theorem c9_csv_flags_and_snapshot (a : Args) (env : EnvMap) (o : FsOracle) (df : List Row) :
    (mainEvents a env o).take 4 =
      [Ev.writeCsv (baseDir ++ "/train/train.csv") false false,
       Ev.writeCsv (baseDir ++ "/validation/validation.csv") false false,
       Ev.writeCsv (baseDir ++ "/test/test.csv") false false,
       Ev.writeCsv (baseDir ++ "/features/features.csv") true false] ∧
    featuresSnapshot df = df :=
  ⟨rfl, featuresSnapshot_eq_self df⟩

/-- Claim C10: there are installed-SDK version strings whose first two
dot-separated components do not both parse as integers — a single component
`"2"`, or `"2.0rc1"` — on which the doctor version check raises an uncaught
`ValueError` instead of classifying the version, so the pass/fail contract
does not hold there. -/
theorem c10_malformed_version_raises :
    (checkAndInstall ⟨some "2", true, true, true, true⟩).2 =
      Except.error ⟨PyKind.valueError, "not enough values to unpack"⟩ ∧
    (checkAndInstall ⟨some "2.0rc1", true, true, true, true⟩).2 =
      Except.error ⟨PyKind.valueError, "invalid literal for int with base 10"⟩ := by
  decide
